import Mathlib

/-!
# Verification of the sqeezz scoped reference registry

Shallow embedding of `src/sqeezz/__init__.py` (the scope-management core of
the sqeezz dependency-injection library) and proofs about the claims of the
specification.

The Python module keeps two module-level globals:
  * `_refs`       : dict mapping group name -> dict mapping reference name -> value
  * `_group_name` : the currently active group name (initially `'default'`)

Python dicts over string keys are embedded as insertion-ordered association
lists; `aset` mirrors `d[k] = v` (update in place, else append) and `alookup`
mirrors `d[k]` returning `none` where Python would raise `KeyError`.
-/

/-- Embedding of the Python values stored in the registry.  `callable n`
stands for a function or class whose `__name__` attribute is `n` (a Python
lambda is `callable "<lambda>"`, since every lambda carries
`__name__ = "<lambda>"`); `pymodule n` is an imported module object named `n`;
`pstr` and `pint` are plain data values, which carry no `__name__`. -/
inductive PyVal where
  | pstr (s : String)
  | pint (n : Int)
  | callable (name : String)
  | pymodule (name : String)
  deriving DecidableEq

/-- Exceptions.  The first four constructors are the exceptions the Python
source can actually raise (`KeyError` from dict lookup in `using`,
`AttributeError` from `ref.__name__` in `add_ref`, `ModuleNotFoundError` from
`import_module` in `lazy_add_ref`, and `raised` for an exception thrown by a
wrapped callable's own body).  The last four constructors are the error
classes named by the specification's taxonomy (§7); they are present so the
spec's statements can be expressed, but no class of these names exists
anywhere in the repository and the source never produces them. -/
inductive PyExc where
  | keyError (key : String)
  | attributeError (attr : String)
  | moduleNotFoundError (name : String)
  | raised (msg : String)
  | unknownGroupError
  | unknownReferenceError
  | invalidReferenceError
  | moduleResolutionError
  deriving DecidableEq

/-- One group of the registry: `dict[str, Any]` as an association list. -/
abbrev RefGroup := List (String × PyVal)

/-- The registry `_refs`: `dict[str, dict[str, Any]]`. -/
abbrev Registry := List (String × RefGroup)

/-- Dict lookup `d[k]`, `none` where Python raises `KeyError`. -/
def alookup {α : Type} : List (String × α) → String → Option α
  | [], _ => none
  | (k, v) :: rest, key => if k = key then some v else alookup rest key

/-- Dict assignment `d[k] = v`: update in place, else append (Python dicts
keep insertion order). -/
def aset {α : Type} : List (String × α) → String → α → List (String × α)
  | [], key, v => [(key, v)]
  | (k, w) :: rest, key, v =>
    if k = key then (key, v) :: rest else (k, w) :: aset rest key v

/-- `_Builder.add_named_ref` (src/sqeezz/__init__.py lines 21-27): create the
group's dict when absent, then insert the binding; returns the updated
registry (the builder mutates the shared `_refs` in place and returns
`self`). -/
def add_named_ref (R : Registry) (group_name n : String) (v : PyVal) : Registry :=
  aset R group_name (aset ((alookup R group_name).getD []) n v)

/-- The `__name__` attribute: `none` where Python raises `AttributeError`. -/
def dunderName : PyVal → Option String
  | .callable n => some n
  | .pymodule n => some n
  | _ => none

/-- `_Builder.add_ref` (lines 16-19): `add_named_ref(ref.__name__, ref)`.
Accessing `__name__` on a value without that attribute raises
`AttributeError`. -/
def add_ref (R : Registry) (group_name : String) (v : PyVal) : Except PyExc Registry :=
  match dunderName v with
  | none => .error (.attributeError "__name__")
  | some n => .ok (add_named_ref R group_name n v)

/-- `_Builder.lazy_add_ref` (lines 29-32): `add_named_ref(ref_name,
import_module(ref_name))`.  The import environment is a parameter
`importMod`; `import_module` raises `ModuleNotFoundError` when the identifier
cannot be resolved.  Resolution happens here, at bind time. -/
def lazy_add_ref (importMod : String → Option PyVal) (R : Registry)
    (group_name m : String) : Except PyExc Registry :=
  match importMod m with
  | none => .error (.moduleNotFoundError m)
  | some v => .ok (add_named_ref R group_name m v)

/-- `using` (lines 39-41): `_refs[group_name][name]` with the active group
name passed explicitly (it is the global `_group_name` in the source).  A
missing group raises `KeyError(group_name)`; a missing name in an existing
group raises `KeyError(name)`. -/
def usingRef (R : Registry) (group_name n : String) : Except PyExc PyVal :=
  match alookup R group_name with
  | none => .error (.keyError group_name)
  | some grp =>
    match alookup grp n with
    | none => .error (.keyError n)
    | some v => .ok v

/-- Direct partial-map view of the registry: the binding stored for
`(group, name)`, if any. -/
def refLookup (R : Registry) (group_name n : String) : Option PyVal :=
  match alookup R group_name with
  | none => none
  | some grp => alookup grp n

theorem alookup_aset_self {α : Type} (l : List (String × α)) (k : String) (v : α) :
    alookup (aset l k v) k = some v := by
  induction l with
  | nil => simp [aset, alookup]
  | cons p rest ih =>
    obtain ⟨k0, w⟩ := p
    by_cases h : k0 = k
    · subst h; simp [aset, alookup]
    · simp [aset, alookup, h, ih]

theorem alookup_aset_other {α : Type} (l : List (String × α)) (k k' : String)
    (v : α) (h : k ≠ k') : alookup (aset l k v) k' = alookup l k' := by
  induction l with
  | nil => simp [aset, alookup, h]
  | cons p rest ih =>
    obtain ⟨k0, w⟩ := p
    by_cases hk : k0 = k
    · subst hk; simp [aset, alookup, h]
    · simp [aset, alookup, hk, ih]

/-!
## Synchronous execution semantics

The wrapper `group(group_name, func)` returns, for a synchronous `func`, the
closure `inner` (src/sqeezz/__init__.py lines 60-71):

    original_group_name = _group_name
    _group_name = group_name
    value = func(*args, **kwargs)
    _group_name = original_group_name
    return value

There is no `try`/`finally`: when `func` raises, the two last lines are
skipped and `_group_name` keeps the value it had inside the call.

The global `_group_name` is threaded explicitly as a `String`.  The outcome
of running a body records the final value of `_group_name`, the sequence of
`using` calls the body performed (each tagged with the group name in effect
and the value or exception it produced), and whether the body raised.
-/

/-- Decidable equality for `Except`, needed to evaluate concrete runs. -/
def exceptDecEq {ε α : Type} [DecidableEq ε] [DecidableEq α] :
    (a b : Except ε α) → Decidable (a = b)
  | .error e, .error f =>
    if h : e = f then isTrue (congrArg Except.error h)
    else isFalse (fun hc => h (Except.error.inj hc))
  | .error _, .ok _ => isFalse (fun hc => Except.noConfusion hc)
  | .ok _, .error _ => isFalse (fun hc => Except.noConfusion hc)
  | .ok a, .ok b =>
    if h : a = b then isTrue (congrArg Except.ok h)
    else isFalse (fun hc => h (Except.ok.inj hc))

instance {ε α : Type} [DecidableEq ε] [DecidableEq α] : DecidableEq (Except ε α) :=
  exceptDecEq

/-- One observed call to `using`: the value of `_group_name` at the moment of
the call, the reference name requested, and the outcome. -/
structure Ev where
  gname : String
  name : String
  result : Except PyExc PyVal
  deriving DecidableEq

/-- Outcome of running a body: final `_group_name`, the resolve events in
order, and the exception that escaped (`none` on normal return). -/
structure RunRes where
  gname : String
  evs : List Ev
  exc : Option PyExc
  deriving DecidableEq

/-- Sequencing of body fragments, threading `_group_name` and propagating an
escaping exception (later fragments do not run after a raise). -/
def RunRes.seq (r : RunRes) (k : String → RunRes) : RunRes :=
  match r.exc with
  | some _ => r
  | none =>
    let r2 := k r.gname
    ⟨r2.gname, r.evs ++ r2.evs, r2.exc⟩

/-- A straight-line client body: a sequence of `using` calls and possibly a
`raise`.  This is the shape of the bodies in the repository's demo and test
callables (e.g. `async_value_processor` in src/test_async_sqeezz.py). -/
inductive FlatCmd where
  | resolve (n : String)
  | raiseExc (msg : String)
  deriving DecidableEq

/-- Run a straight-line body under active group `g` against registry `R`.  A
failing `using` call aborts the body with its `KeyError`; an explicit raise
aborts with `raised`. -/
def runFlat (R : Registry) : List FlatCmd → String → RunRes
  | [], g => ⟨g, [], none⟩
  | .resolve n :: rest, g =>
    match usingRef R g n with
    | .error e => ⟨g, [], some e⟩
    | .ok v =>
      let r := runFlat R rest g
      ⟨r.gname, ⟨g, n, .ok v⟩ :: r.evs, r.exc⟩
  | .raiseExc m :: _, g => ⟨g, [], some (.raised m)⟩

/-- The synchronous wrapper `inner` produced by `group(group_name, func)`
(lines 60-71), with `func` as a state transformer on `_group_name`: save the
global, set it to `group_name`, run the body, and restore the saved value
only on normal return — an exception propagates with the global left as the
body left it, since the source has no `try`/`finally`. -/
def groupWrap (group_name : String) (body : String → RunRes) (g0 : String) : RunRes :=
  let original_group_name := g0
  let r := body group_name
  match r.exc with
  | some _ => r
  | none => ⟨original_group_name, r.evs, none⟩

/-- `group(group_name, func)` for a `func` taking arguments: the returned
`inner` forwards `*args, **kwargs` to `func` unchanged, so the wrapper is
`groupWrap` at every argument. -/
def groupWrapArgs {α : Type} (group_name : String) (f : α → String → RunRes) :
    α → String → RunRes :=
  fun x => groupWrap group_name (f x)

/-- The scenario of claim C5: a callable whose body is `pre`, then an inner
call wrapped with group `b` whose body is `innerB`, then `post`, the whole
wrapped with group `a` and invoked with ambient group `g0`. -/
def nestedRun (R : Registry) (a b : String) (pre innerB post : List FlatCmd)
    (g0 : String) : RunRes :=
  groupWrap a
    (fun g =>
      ((runFlat R pre g).seq (fun g' => groupWrap b (runFlat R innerB) g')).seq
        (fun g' => runFlat R post g'))
    g0

theorem runFlat_gname (R : Registry) (l : List FlatCmd) (g : String) :
    (runFlat R l g).gname = g := by
  induction l with
  | nil => rfl
  | cons c rest ih =>
    cases c with
    | resolve n =>
      simp only [runFlat]
      cases usingRef R g n with
      | error e => rfl
      | ok v => simpa using ih
    | raiseExc m => rfl

theorem runFlat_evs (R : Registry) (l : List FlatCmd) (g : String) :
    ∀ ev ∈ (runFlat R l g).evs, ev.gname = g ∧ ev.result = usingRef R g ev.name := by
  induction l with
  | nil => intro ev h; simp [runFlat] at h
  | cons c rest ih =>
    cases c with
    | resolve n =>
      intro ev h
      simp only [runFlat] at h
      cases hu : usingRef R g n with
      | error e => rw [hu] at h; simp at h
      | ok v =>
        rw [hu] at h
        simp only [List.mem_cons] at h
        rcases h with h | h
        · subst h; exact ⟨rfl, hu.symm⟩
        · exact ih ev h
    | raiseExc m => intro ev h; simp [runFlat] at h

/-!
## Asynchronous execution semantics

For a coroutine function, `group(group_name, func)` returns `async_inner`
(src/sqeezz/__init__.py lines 47-58):

    original_group_name = _group_name
    _group_name = group_name
    value = await func(*args, **kwargs)
    _group_name = original_group_name
    return value

A coroutine's code runs only when the task is first advanced by the event
loop, so `original_group_name` is captured at that moment, not when the
wrapped callable is invoked.  The awaited body runs in segments separated by
its suspension points (`await asyncio.sleep(...)` in the repository's
examples); between a suspension and the matching resumption the event loop
may run other tasks, which read and write the same module-level
`_group_name`.  On normal completion `_group_name` is set back to the value
captured at start; an exception escaping the body skips that assignment.

The machine below runs two wrapped coroutines under an explicit cooperative
schedule (`true` steps the first task, `false` the second), which is exactly
the setting of `asyncio.gather(processor_a(), processor_b())` in
`test_async_group_context_switching` (src/test_async_sqeezz.py lines 279-311).
-/

/-- A command of an asynchronous body: a `using` call, or a suspension point
(`await` of an external operation). -/
inductive ACmd where
  | aresolve (n : String)
  | pause
  deriving DecidableEq

/-- How a run segment of an asynchronous body ended. -/
inductive SegEnd where
  | yielded
  | finished
  | errored (e : PyExc)
  deriving DecidableEq

/-- Run one segment of an asynchronous body under the current value `g` of
`_group_name`: execute commands until a suspension point is consumed, the
body ends, or a `using` call raises.  Returns the remaining commands, the
resolve events of the segment, and how it ended. -/
def runSeg (R : Registry) (g : String) : List ACmd → List ACmd × List Ev × SegEnd
  | [] => ([], [], .finished)
  | .pause :: rest => (rest, [], .yielded)
  | .aresolve n :: rest =>
    match usingRef R g n with
    | .error e => (rest, [], .errored e)
    | .ok v =>
      let (rem, evs, se) := runSeg R g rest
      (rem, ⟨g, n, .ok v⟩ :: evs, se)

/-- State of one task running a wrapped asynchronous call: the group fixed at
wrap time, the remaining body, the `original_group_name` captured when the
task first ran (`none` until then), the resolve events observed so far,
whether the task has ended, and the exception that ended it, if any. -/
structure TaskSt where
  gname : String
  todo : List ACmd
  saved : Option String
  evs : List Ev
  ended : Bool
  exc : Option PyExc
  deriving DecidableEq

/-- Advance one task by one scheduler step, threading the module-level
`_group_name` (`g`).  A task that has not started first executes the prologue
of `async_inner`: capture `original_group_name := _group_name` and set
`_group_name := group_name`; then its first segment runs.  A resumed task
runs its next segment under whatever `_group_name` currently is — `async_inner`
touches the global only at start and at completion.  On completion
`_group_name := original_group_name`; on an exception no restore happens. -/
def stepTask (R : Registry) (g : String) (t : TaskSt) : String × TaskSt :=
  if t.ended then (g, t)
  else
    match t.saved with
    | none =>
      let saved := g
      match runSeg R t.gname t.todo with
      | (rem, evs, .yielded) =>
        (t.gname, ⟨t.gname, rem, some saved, t.evs ++ evs, false, none⟩)
      | (rem, evs, .finished) =>
        (saved, ⟨t.gname, rem, some saved, t.evs ++ evs, true, none⟩)
      | (rem, evs, .errored e) =>
        (t.gname, ⟨t.gname, rem, some saved, t.evs ++ evs, true, some e⟩)
    | some saved =>
      match runSeg R g t.todo with
      | (rem, evs, .yielded) =>
        (g, ⟨t.gname, rem, some saved, t.evs ++ evs, false, none⟩)
      | (rem, evs, .finished) =>
        (saved, ⟨t.gname, rem, some saved, t.evs ++ evs, true, none⟩)
      | (rem, evs, .errored e) =>
        (g, ⟨t.gname, rem, some saved, t.evs ++ evs, true, some e⟩)

/-- Run two tasks under a cooperative schedule: `true` steps the first task,
`false` the second.  Returns the final `_group_name` and both task states. -/
def run2 (R : Registry) : List Bool → String → TaskSt → TaskSt →
    String × TaskSt × TaskSt
  | [], g, t1, t2 => (g, t1, t2)
  | pick :: rest, g, t1, t2 =>
    if pick then
      let (g', t1') := stepTask R g t1
      run2 R rest g' t1' t2
    else
      let (g', t2') := stepTask R g t2
      run2 R rest g' t1 t2'

/-- The registry of `test_async_group_context_switching`
(src/test_async_sqeezz.py lines 282-288): group_a binds value='A',
multiplier=2; group_b binds value='B', multiplier=3. -/
def asyncTestRegistry : Registry :=
  [("group_a", [("value", .pstr "A"), ("multiplier", .pint 2)]),
   ("group_b", [("value", .pstr "B"), ("multiplier", .pint 3)])]

/-- The body of `async_value_processor` with its resolves placed after the
suspension point: await, then `using('value')`, then `using('multiplier')`. -/
def asyncBody : List ACmd :=
  [.pause, .aresolve "value", .aresolve "multiplier"]

/-- `processor_a = group('group_a', async_value_processor)`, not yet run. -/
def taskA0 : TaskSt := ⟨"group_a", asyncBody, none, [], false, none⟩

/-- `processor_b = group('group_b', async_value_processor)`, not yet run. -/
def taskB0 : TaskSt := ⟨"group_b", asyncBody, none, [], false, none⟩

/-!
## Group switcher (modelled from the spec)
-/

/-- Modelled from the spec: `group_switcher` (`asSwitcher` in §4.4/§6) is
referenced by src/main.py (`@sqeezz.group_switcher`, then indexed as
`api_handler['api_v1']('/users')`) but its definition is absent from
src/sqeezz/__init__.py, the only sqeezz source file under src/.  Per §4.4,
indexing the switcher object by a group name string yields a callable
equivalent to `wrap(groupName, callable)`; here the switcher maps a group
name `G` to the wrapped form of `f` fixed at `G`, with arguments forwarded. -/
def group_switcher {α : Type} (f : α → String → RunRes) :
    String → α → String → RunRes :=
  fun group_name => groupWrapArgs group_name f

/-!
## Helper lemmas shared by the claim theorems
-/

theorem usingRef_add_self (R : Registry) (g n : String) (v : PyVal) :
    usingRef (add_named_ref R g n v) g n = .ok v := by
  simp [usingRef, add_named_ref, alookup_aset_self]

theorem groupWrap_evs (G : String) (body : String → RunRes) (g0 : String) :
    (groupWrap G body g0).evs = (body G).evs := by
  simp only [groupWrap]
  cases hx : (body G).exc <;> simp [hx]

theorem nestedRun_eq (R : Registry) (a b : String)
    (pre innerB post : List FlatCmd) (g0 : String)
    (h1 : (runFlat R pre a).exc = none)
    (h2 : (runFlat R innerB b).exc = none)
    (h3 : (runFlat R post a).exc = none) :
    nestedRun R a b pre innerB post g0 =
      ⟨g0, (runFlat R pre a).evs ++ ((runFlat R innerB b).evs ++ (runFlat R post a).evs),
        none⟩ := by
  simp [nestedRun, groupWrap, RunRes.seq, h1, h2, h3, runFlat_gname]

theorem nestedRun_exc_none (R : Registry) (a b : String)
    (pre innerB post : List FlatCmd) (g0 : String)
    (h : (nestedRun R a b pre innerB post g0).exc = none) :
    (runFlat R pre a).exc = none ∧ (runFlat R innerB b).exc = none ∧
      (runFlat R post a).exc = none := by
  cases h1 : (runFlat R pre a).exc with
  | some e =>
    exfalso
    simp [nestedRun, groupWrap, RunRes.seq, h1, runFlat_gname] at h
  | none =>
    cases h2 : (runFlat R innerB b).exc with
    | some e =>
      exfalso
      simp [nestedRun, groupWrap, RunRes.seq, h1, h2, runFlat_gname] at h
    | none =>
      cases h3 : (runFlat R post a).exc with
      | some e =>
        exfalso
        simp [nestedRun, groupWrap, RunRes.seq, h1, h2, h3, runFlat_gname] at h
      | none => exact ⟨rfl, rfl, rfl⟩

/-!
## Claim theorems
-/

/-- Claim C1 (evaluation at the failing interleaving): two asynchronous calls
wrapped with distinct groups `group_a` and `group_b`, started concurrently
and interleaved at their suspension points, do NOT each resolve only their
own group's bindings.  Under the schedule "A starts and suspends, B starts
and suspends, A resumes to completion, B resumes", every resolve task A
performs after its resumption reads `group_b`'s bindings (value `'B'`,
multiplier `3`), because `_group_name` is a single module-level global that
task B overwrote; task B then resumes under the restored `'default'` group
and its first resolve raises `KeyError('default')`. -/
theorem async_interleaving_reads_other_group :
    (run2 asyncTestRegistry [true, false, true, false] "default" taskA0 taskB0).2.1.evs
      = [⟨"group_b", "value", .ok (.pstr "B")⟩,
         ⟨"group_b", "multiplier", .ok (.pint 3)⟩]
    ∧ (∀ ev ∈ (run2 asyncTestRegistry [true, false, true, false] "default"
          taskA0 taskB0).2.1.evs,
        ev.gname ≠ "group_a"
        ∧ ev.result ≠ usingRef asyncTestRegistry "group_a" ev.name)
    ∧ (run2 asyncTestRegistry [true, false, true, false] "default" taskA0 taskB0).2.2.exc
      = some (.keyError "default") := by decide

/-- Claim C2 (evaluation at the failing input): when the wrapped callable
raises, the wrapper returned by `group` does NOT restore the ambient group
before the failure propagates — the source has no `try`/`finally`, so after
`group('crash_group', f)` is invoked with ambient group `'default'` and `f`
raises, `_group_name` is left equal to `'crash_group'`, not restored to
`'default'`. -/
theorem wrap_no_restore_on_exception :
    groupWrap "crash_group" (runFlat [] [.raiseExc "boom"]) "default"
      = ⟨"crash_group", [], some (.raised "boom")⟩
    ∧ ("crash_group" : String) ≠ "default" := by decide

/-- Claim C3 (counterexample): resolving under a never-built group does not
fail with `UnknownGroupError`, and resolving an unbound name in an existing
group does not fail with `UnknownReferenceError` — the source raises the
builtin `KeyError` in both cases (carrying the group name, respectively the
reference name); no class named `UnknownGroupError` or
`UnknownReferenceError` exists in the repository. -/
theorem using_error_classes_counterexample :
    usingRef [] "ghost_group" "dep" = .error (.keyError "ghost_group")
    ∧ PyExc.keyError "ghost_group" ≠ PyExc.unknownGroupError
    ∧ usingRef [("grp", [("present", .pint 1)])] "grp" "dep"
      = .error (.keyError "dep")
    ∧ PyExc.keyError "dep" ≠ PyExc.unknownReferenceError := by decide

/-- Claim C3 (amended): resolve fails with `KeyError(activeGroup)` when the
active group has never been built, with `KeyError(name)` when the group
exists but holds no entry under the name, and never silently returns a
default: a successful resolve returns a value actually bound in the
registry. -/
theorem using_amended (R : Registry) (g n : String) :
    (alookup R g = none → usingRef R g n = .error (.keyError g))
    ∧ (∀ grp, alookup R g = some grp → alookup grp n = none →
        usingRef R g n = .error (.keyError n))
    ∧ (∀ v, usingRef R g n = .ok v → refLookup R g n = some v) := by
  refine ⟨?_, ?_, ?_⟩
  · intro h; simp [usingRef, h]
  · intro grp hg hn; simp [usingRef, hg, hn]
  · intro v hv
    cases hg : alookup R g with
    | none => simp [usingRef, hg] at hv
    | some grp =>
      cases hn : alookup grp n with
      | none => simp [usingRef, hg, hn] at hv
      | some w =>
        simp [usingRef, hg, hn] at hv
        simp [refLookup, hg, hn, hv]

/-- Witness for `using_amended` at concrete inputs: the empty registry has no
group `G`, and resolving under it yields `KeyError('G')`. -/
theorem using_amended_witness :
    alookup ([] : Registry) "G" = none
    ∧ usingRef [] "G" "N" = .error (.keyError "G") :=
  ⟨by decide, (using_amended [] "G" "N").1 (by decide)⟩

/-- Claim C4: after `add_named_ref(N, V)` on the builder for group `G`,
resolving `N` while `G` is the active group returns exactly the bound value
`V`. -/
theorem resolve_returns_bound_value (R : Registry) (g n : String) (v : PyVal) :
    usingRef (add_named_ref R g n v) g n = .ok v :=
  usingRef_add_self R g n v

/-- Claim C5: a synchronous callable wrapped with group `a` whose body runs
`pre`, then invokes a callable wrapped with group `b` (body `innerB`), then
runs `post`: on successful execution, the run's resolve events are exactly
those of `pre`, then `innerB`, then `post`; every resolve inside the inner
call observes group `b`; every resolve after the inner call returns observes
group `a` again; and the ambient group ends as it began. -/
theorem nested_group_scoping (R : Registry) (a b : String)
    (pre innerB post : List FlatCmd) (g0 : String)
    (h : (nestedRun R a b pre innerB post g0).exc = none) :
    (nestedRun R a b pre innerB post g0).evs
      = (runFlat R pre a).evs ++ ((runFlat R innerB b).evs ++ (runFlat R post a).evs)
    ∧ (∀ ev ∈ (runFlat R innerB b).evs, ev.gname = b)
    ∧ (∀ ev ∈ (runFlat R post a).evs, ev.gname = a)
    ∧ (nestedRun R a b pre innerB post g0).gname = g0 := by
  obtain ⟨h1, h2, h3⟩ := nestedRun_exc_none R a b pre innerB post g0 h
  rw [nestedRun_eq R a b pre innerB post g0 h1 h2 h3]
  refine ⟨rfl, ?_, ?_, rfl⟩
  · intro ev hev; exact (runFlat_evs R innerB b ev hev).1
  · intro ev hev; exact (runFlat_evs R post a ev hev).1

/-- Witness for `nested_group_scoping` at concrete inputs: outer group `ga`
resolving `x`, inner group `gb` resolving `y`, then `x` again outside. -/
theorem nested_group_scoping_witness :
    (nestedRun [("ga", [("x", .pstr "1")]), ("gb", [("y", .pstr "2")])]
        "ga" "gb" [.resolve "x"] [.resolve "y"] [.resolve "x"] "default").exc = none
    ∧ ((nestedRun [("ga", [("x", .pstr "1")]), ("gb", [("y", .pstr "2")])]
          "ga" "gb" [.resolve "x"] [.resolve "y"] [.resolve "x"] "default").evs
        = (runFlat [("ga", [("x", .pstr "1")]), ("gb", [("y", .pstr "2")])]
            [.resolve "x"] "ga").evs
          ++ ((runFlat [("ga", [("x", .pstr "1")]), ("gb", [("y", .pstr "2")])]
              [.resolve "y"] "gb").evs
            ++ (runFlat [("ga", [("x", .pstr "1")]), ("gb", [("y", .pstr "2")])]
                [.resolve "x"] "ga").evs)
      ∧ (∀ ev ∈ (runFlat [("ga", [("x", .pstr "1")]), ("gb", [("y", .pstr "2")])]
            [.resolve "y"] "gb").evs, ev.gname = "gb")
      ∧ (∀ ev ∈ (runFlat [("ga", [("x", .pstr "1")]), ("gb", [("y", .pstr "2")])]
            [.resolve "x"] "ga").evs, ev.gname = "ga")
      ∧ (nestedRun [("ga", [("x", .pstr "1")]), ("gb", [("y", .pstr "2")])]
          "ga" "gb" [.resolve "x"] [.resolve "y"] [.resolve "x"] "default").gname
        = "default") :=
  ⟨by decide,
    nested_group_scoping [("ga", [("x", .pstr "1")]), ("gb", [("y", .pstr "2")])]
      "ga" "gb" [.resolve "x"] [.resolve "y"] [.resolve "x"] "default" (by decide)⟩

/-- Claim C6: building the same group name a second time merges into the
existing group — after binding `n1` and then, via a second build of `g`,
binding `n2`, both names resolve to their bound values; the first build's
binding is not discarded. -/
theorem rebuild_same_group_merges (R : Registry) (g n1 n2 : String)
    (v1 v2 : PyVal) (h : n1 ≠ n2) :
    usingRef (add_named_ref (add_named_ref R g n1 v1) g n2 v2) g n1 = .ok v1
    ∧ usingRef (add_named_ref (add_named_ref R g n1 v1) g n2 v2) g n2 = .ok v2 := by
  constructor
  · simp [usingRef, add_named_ref, alookup_aset_self, alookup_aset_other, Ne.symm h]
  · exact usingRef_add_self (add_named_ref R g n1 v1) g n2 v2

/-- Witness for `rebuild_same_group_merges` at concrete inputs. -/
theorem rebuild_same_group_merges_witness :
    ("a" : String) ≠ "b"
    ∧ (usingRef (add_named_ref (add_named_ref [] "g" "a" (.pint 1)) "g" "b" (.pint 2))
          "g" "a" = .ok (.pint 1)
      ∧ usingRef (add_named_ref (add_named_ref [] "g" "a" (.pint 1)) "g" "b" (.pint 2))
          "g" "b" = .ok (.pint 2)) :=
  ⟨by decide, rebuild_same_group_merges [] "g" "a" "b" (.pint 1) (.pint 2) (by decide)⟩

/-- Claim C7: indexing the group switcher by a group name `G` yields a
callable that behaves, on every argument and every ambient group, exactly as
the `group`-wrapped callable fixed at `G`; and every resolve performed
through the switcher under key `G` observes group `G` and returns that
group's own binding — so repeated calls through different group keys each
reflect only their own group's bindings. -/
theorem asSwitcher_equiv_wrap {α : Type} (R : Registry)
    (bodies : α → List FlatCmd) (G : String) (x : α) (g0 : String) :
    group_switcher (fun y => runFlat R (bodies y)) G x g0
      = groupWrapArgs G (fun y => runFlat R (bodies y)) x g0
    ∧ ∀ ev ∈ (group_switcher (fun y => runFlat R (bodies y)) G x g0).evs,
        ev.gname = G ∧ ev.result = usingRef R G ev.name := by
  refine ⟨rfl, ?_⟩
  intro ev hev
  have hevs : (group_switcher (fun y => runFlat R (bodies y)) G x g0).evs
      = (runFlat R (bodies x) G).evs := by
    simp only [group_switcher, groupWrapArgs]
    exact groupWrap_evs G (runFlat R (bodies x)) g0
  rw [hevs] at hev
  exact runFlat_evs R (bodies x) G ev hev

/-- Witness for `asSwitcher_equiv_wrap` at concrete inputs: one callable,
switched between two groups binding different values for `db_type`. -/
theorem asSwitcher_equiv_wrap_witness :
    (group_switcher
        (fun _ : Unit => runFlat
          [("mysql_db", [("db_type", .pstr "mysql")]),
           ("postgres_db", [("db_type", .pstr "postgres")])]
          [.resolve "db_type"])
        "mysql_db" () "default"
      = groupWrapArgs "mysql_db"
          (fun _ : Unit => runFlat
            [("mysql_db", [("db_type", .pstr "mysql")]),
             ("postgres_db", [("db_type", .pstr "postgres")])]
            [.resolve "db_type"]) () "default")
    ∧ ∀ ev ∈ (group_switcher
        (fun _ : Unit => runFlat
          [("mysql_db", [("db_type", .pstr "mysql")]),
           ("postgres_db", [("db_type", .pstr "postgres")])]
          [.resolve "db_type"])
        "mysql_db" () "default").evs,
        ev.gname = "mysql_db"
        ∧ ev.result = usingRef
            [("mysql_db", [("db_type", .pstr "mysql")]),
             ("postgres_db", [("db_type", .pstr "postgres")])]
            "mysql_db" ev.name :=
  asSwitcher_equiv_wrap
    [("mysql_db", [("db_type", .pstr "mysql")]),
     ("postgres_db", [("db_type", .pstr "postgres")])]
    (fun _ : Unit => [.resolve "db_type"]) "mysql_db" () "default"

/-- Claim C8 (counterexample): a lambda-like value does NOT make `add_ref`
fail with `InvalidReferenceError` — a Python lambda carries
`__name__ = "<lambda>"`, so the source binds it under that name and succeeds;
and a value genuinely lacking `__name__` (a plain int) fails with the builtin
`AttributeError`, not with `InvalidReferenceError`, a class that exists
nowhere in the repository. -/
theorem add_ref_lambda_counterexample :
    add_ref [] "grp" (.callable "<lambda>")
      = .ok [("grp", [("<lambda>", .callable "<lambda>")])]
    ∧ add_ref [] "grp" (.pint 5) = .error (.attributeError "__name__")
    ∧ PyExc.attributeError "__name__" ≠ PyExc.invalidReferenceError := by decide

/-- Claim C8 (amended): `add_ref(v)` fails with `AttributeError` when `v` has
no `__name__` attribute; when `v` has `__name__ = n` (which includes lambdas,
whose name is `'<lambda>'`), it behaves as `add_named_ref(n, v)`. -/
theorem add_ref_amended (R : Registry) (g : String) (v : PyVal) :
    (dunderName v = none → add_ref R g v = .error (.attributeError "__name__"))
    ∧ (∀ n, dunderName v = some n → add_ref R g v = .ok (add_named_ref R g n v)) := by
  constructor
  · intro h; simp [add_ref, h]
  · intro n h; simp [add_ref, h]

/-- Witness for `add_ref_amended` at concrete inputs: an int has no
`__name__` and fails; a function named `f` binds under `f`. -/
theorem add_ref_amended_witness :
    (dunderName (.pint 3) = none
      ∧ add_ref [] "g" (.pint 3) = .error (.attributeError "__name__"))
    ∧ (dunderName (.callable "f") = some "f"
      ∧ add_ref [] "g" (.callable "f")
        = .ok (add_named_ref [] "g" "f" (.callable "f"))) :=
  ⟨⟨by decide, (add_ref_amended [] "g" (.pint 3)).1 (by decide)⟩,
   ⟨by decide, (add_ref_amended [] "g" (.callable "f")).2 "f" (by decide)⟩⟩

/-- Claim C9 (counterexample): an unresolvable module identifier makes
`lazy_add_ref` fail with the builtin `ModuleNotFoundError` raised by
`importlib.import_module`, not with `ModuleResolutionError`, a class that
exists nowhere in the repository. -/
theorem lazy_add_ref_error_counterexample :
    lazy_add_ref (fun _ => none) [] "grp" "missing_mod"
      = .error (.moduleNotFoundError "missing_mod")
    ∧ PyExc.moduleNotFoundError "missing_mod" ≠ PyExc.moduleResolutionError := by
  decide

/-- Claim C9 (amended): `lazy_add_ref(m)` resolves the module eagerly at call
time — an unresolvable identifier fails immediately, at bind time, with
`ModuleNotFoundError`; a resolvable one is resolved there and the resolved
module object itself is bound under `m`, so a later resolve returns it
without consulting the import machinery again. -/
theorem lazy_add_ref_amended (importMod : String → Option PyVal) (R : Registry)
    (g m : String) :
    (importMod m = none →
      lazy_add_ref importMod R g m = .error (.moduleNotFoundError m))
    ∧ (∀ v, importMod m = some v →
        lazy_add_ref importMod R g m = .ok (add_named_ref R g m v)
        ∧ usingRef (add_named_ref R g m v) g m = .ok v) := by
  constructor
  · intro h; simp [lazy_add_ref, h]
  · intro v h
    refine ⟨by simp [lazy_add_ref, h], usingRef_add_self R g m v⟩

/-- Witness for `lazy_add_ref_amended` at concrete inputs: an import
environment that resolves `os` and nothing else. -/
theorem lazy_add_ref_amended_witness :
    ((fun s => if s = "os" then some (PyVal.pymodule "os") else none) "nope" = none
      ∧ lazy_add_ref (fun s => if s = "os" then some (PyVal.pymodule "os") else none)
          [] "g" "nope" = .error (.moduleNotFoundError "nope"))
    ∧ ((fun s => if s = "os" then some (PyVal.pymodule "os") else none) "os"
        = some (.pymodule "os")
      ∧ lazy_add_ref (fun s => if s = "os" then some (PyVal.pymodule "os") else none)
          [] "g" "os" = .ok (add_named_ref [] "g" "os" (.pymodule "os"))
      ∧ usingRef (add_named_ref [] "g" "os" (.pymodule "os")) "g" "os"
        = .ok (.pymodule "os")) :=
  ⟨⟨by decide,
    (lazy_add_ref_amended (fun s => if s = "os" then some (PyVal.pymodule "os") else none)
      [] "g" "nope").1 (by decide)⟩,
   ⟨by decide,
    (lazy_add_ref_amended (fun s => if s = "os" then some (PyVal.pymodule "os") else none)
      [] "g" "os").2 (.pymodule "os") (by decide)⟩⟩

/-- Claim C10: `add_named_ref(N, V)` on the builder for group `G` changes at
most the entry `(G, N)`: every group other than `G` keeps its whole binding
table, and within `G` every name other than `N` keeps exactly its prior
binding. -/
theorem add_named_ref_frame (R : Registry) (g n : String) (v : PyVal) :
    (∀ g', g' ≠ g → alookup (add_named_ref R g n v) g' = alookup R g')
    ∧ (∀ n', n' ≠ n → refLookup (add_named_ref R g n v) g n' = refLookup R g n') := by
  constructor
  · intro g' hg'
    exact alookup_aset_other R g g' _ (Ne.symm hg')
  · intro n' hn'
    simp only [refLookup, add_named_ref, alookup_aset_self]
    rw [alookup_aset_other _ n n' v (Ne.symm hn')]
    cases hg : alookup R g with
    | none => simp [hg, alookup]
    | some grp => simp [hg]

/-- Witness for `add_named_ref_frame` at concrete inputs: binding `n` in
group `g` leaves group `other` and the sibling name `m` untouched. -/
theorem add_named_ref_frame_witness :
    (("other" : String) ≠ "g"
      ∧ alookup (add_named_ref [("other", [("k", .pint 7)]), ("g", [("m", .pint 8)])]
            "g" "n" (.pint 1)) "other"
        = alookup [("other", [("k", .pint 7)]), ("g", [("m", .pint 8)])] "other")
    ∧ (("m" : String) ≠ "n"
      ∧ refLookup (add_named_ref [("other", [("k", .pint 7)]), ("g", [("m", .pint 8)])]
            "g" "n" (.pint 1)) "g" "m"
        = refLookup [("other", [("k", .pint 7)]), ("g", [("m", .pint 8)])] "g" "m") :=
  ⟨⟨by decide,
    (add_named_ref_frame [("other", [("k", .pint 7)]), ("g", [("m", .pint 8)])]
      "g" "n" (.pint 1)).1 "other" (by decide)⟩,
   ⟨by decide,
    (add_named_ref_frame [("other", [("k", .pint 7)]), ("g", [("m", .pint 8)])]
      "g" "n" (.pint 1)).2 "m" (by decide)⟩⟩
